import Mathlib

/-!
Verification development for the genia-mcp-scheduler repository.

The Python sources under `app/` are shallowly embedded below:

* `app/models/task.py`   — enums `TargetPlatform`, `ScheduledTaskStatus`, the
  Pydantic payload / request models;
* `app/core/config.py`   — the `Settings` object (note: it declares *no*
  `MCP_EMAIL_BASE_URL` field);
* `app/db/models.py`     — the `ScheduledTaskTable` ORM row (note: it declares
  *no* `task_type` column);
* `app/db/session.py`    — `create_db_and_tables` (drops and recreates the
  `scheduled_tasks` table at startup);
* `app/services/scheduler_service.py` — `create_task`,
  `update_task_status_in_db`, `delete_task`, `execute_scheduled_task_job`,
  `_execute_task_logic`, `_get_mcp_base_url`, plus the APScheduler `add_job`
  registration it performs (`misfire_grace_time=3600`);
* `app/api/api_router.py` — the DELETE endpoint's 404 translation.

Modelling conventions:

* The database's `Text` columns that hold JSON are modelled at the JSON-value
  level (type `Json`): every write the code performs serialises a JSON value
  with `json.dumps` / `model_dump_json`, and Python's `json.loads` of such a
  dump returns an equal value, so the serialise/parse pair is the identity on
  the states the program produces.
* UTC instants are modelled as `Nat` (seconds); only ordering and differences
  of instants matter to the code under verification.
* Effects are made explicit: database state is a `List` of rows threaded
  through each function, and each function additionally returns the list of
  observable `Event`s (outbound HTTP POSTs and status writes) it performed.
  A Python exception escaping a function is an `Except.error` carrying the
  exception text; state mutations committed before the raise are kept, since
  the service commits each write immediately.
-/

namespace Scheduler

/-- JSON values, the shallow embedding of Python dict/list/str/num/bool/None
data carried in payloads, request bodies and results. -/
inductive Json where
  | null : Json
  | bool (b : Bool) : Json
  | num (n : Int) : Json
  | str (s : String) : Json
  | arr (elems : List Json) : Json
  | obj (fields : List (String × Json)) : Json
deriving Repr

/-- Python `dict.get(key)` on a parsed JSON document: defined (as `Option`)
only when the document is an object; on any other value Python raises
`AttributeError` (no `.get` attribute), modelled as `Except.error`. -/
def Json.dictGet : Json → String → Except String (Option Json)
  | .obj fields, k => .ok ((fields.find? (fun f => f.1 == k)).map (fun f => f.2))
  | _, _ => .error "AttributeError: object has no attribute 'get'"

/-- Python truthiness of an optional value (`if result:`): `None`, empty
containers, empty strings, `0` and `False` are falsy. -/
def pyTruthy : Option Json → Bool
  | none => false
  | some .null => false
  | some (.bool b) => b
  | some (.num n) => n != 0
  | some (.str s) => s != ""
  | some (.arr elems) => !elems.isEmpty
  | some (.obj fields) => !fields.isEmpty

/-- `TargetPlatform` enum from `app/models/task.py`. -/
inductive TargetPlatform where
  | linkedin | x_twitter | facebook | instagram | wordpress | email
deriving Repr, DecidableEq

/-- The lowercase string value of a `TargetPlatform` member (its `.value`). -/
def TargetPlatform.value : TargetPlatform → String
  | .linkedin => "linkedin"
  | .x_twitter => "x_twitter"
  | .facebook => "facebook"
  | .instagram => "instagram"
  | .wordpress => "wordpress"
  | .email => "email"

/-- `ScheduledTaskStatus` enum from `app/models/task.py`. -/
inductive ScheduledTaskStatus where
  | pending | running | completed | failed | cancelled
deriving Repr, DecidableEq

/-- `Settings` from `app/core/config.py`, with its literal defaults. The class
declares base-URL fields for linkedin, x, facebook, instagram and wordpress
only; there is no `MCP_EMAIL_BASE_URL` field, so reading that attribute on a
`Settings` instance raises `AttributeError` in Python. -/
structure Settings where
  MCP_API_TOKEN_SECRET : String := "YOUR_SCHEDULER_MCP_SECRET_TOKEN_HERE"
  MCP_LINKEDIN_BASE_URL : String := "http://localhost:8002/api/v1"
  MCP_X_BASE_URL : String := "http://localhost:8003/api/v1"
  MCP_FACEBOOK_BASE_URL : String := "http://localhost:8004/api/v1"
  MCP_INSTAGRAM_BASE_URL : String := "http://localhost:8005/api/v1"
  MCP_WORDPRESS_BASE_URL : String := "http://localhost:8006/api/v1"
deriving Repr

/-- `ScheduledTaskPayload` from `app/models/task.py`. -/
structure ScheduledTaskPayload where
  mcp_target_endpoint : String
  mcp_request_body : Json
  user_platform_tokens : Json
deriving Repr

/-- Pydantic `model_dump_json` of a payload, as the JSON value the produced
text parses back to. -/
def ScheduledTaskPayload.model_dump_json (p : ScheduledTaskPayload) : Json :=
  .obj [("mcp_target_endpoint", .str p.mcp_target_endpoint),
        ("mcp_request_body", p.mcp_request_body),
        ("user_platform_tokens", p.user_platform_tokens)]

/-- `PlatformIdentifier` from `app/models/task.py`. -/
structure PlatformIdentifier where
  platform_name : TargetPlatform
  account_id : String
deriving Repr

/-- `CreateScheduledTaskRequest` from `app/models/task.py`. -/
structure CreateScheduledTaskRequest where
  genia_user_id : String
  platform_identifier : PlatformIdentifier
  scheduled_at_utc : Nat
  task_payload : ScheduledTaskPayload
  task_type : String := "generic_task"
deriving Repr

/-- `ScheduledTaskTable` from `app/db/models.py`: exactly the mapped columns
(`task_id`, `genia_user_id`, `platform_name`, `account_id`,
`scheduled_at_utc`, `status`, `task_payload_json`, `user_platform_tokens_json`,
`created_at_utc`, `updated_at_utc`, `execution_result_json`). The model maps
no `task_type` column. -/
structure ScheduledTaskTable where
  task_id : String
  genia_user_id : String
  platform_name : TargetPlatform
  account_id : String
  scheduled_at_utc : Nat
  status : ScheduledTaskStatus
  task_payload_json : Json
  user_platform_tokens_json : Json
  created_at_utc : Nat
  updated_at_utc : Nat
  execution_result_json : Option Json
deriving Repr

/-- The names of the mapped attributes of `ScheduledTaskTable`
(`app/db/models.py`). -/
def scheduledTaskTableColumns : List String :=
  ["task_id", "genia_user_id", "platform_name", "account_id",
   "scheduled_at_utc", "status", "task_payload_json",
   "user_platform_tokens_json", "created_at_utc", "updated_at_utc",
   "execution_result_json"]

/-- The keyword-argument names `create_task` passes to the
`ScheduledTaskTable(...)` constructor (`scheduler_service.py` lines 70-83). -/
def createTaskKwargs : List String :=
  ["task_id", "genia_user_id", "platform_name", "account_id",
   "scheduled_at_utc", "task_payload_json", "user_platform_tokens_json",
   "status", "created_at_utc", "updated_at_utc", "execution_result_json",
   "task_type"]

/-- SQLAlchemy's declarative constructor accepts a keyword argument iff it is
an attribute of the mapped class; any other keyword raises
`TypeError("... is an invalid keyword argument ...")`. -/
def declarativeConstructorAccepts : Bool :=
  createTaskKwargs.all (fun k => scheduledTaskTableColumns.contains k)

/-- The `scheduled_tasks` table contents: rows in insertion order. -/
abbrev Store := List ScheduledTaskTable

/-- `query(...).filter(task_id == tid).first()`: the first row with the given
primary key, `None` when absent. -/
def Store.first : Store → String → Option ScheduledTaskTable
  | [], _ => none
  | t :: ts, tid => if t.task_id == tid then some t else Store.first ts tid

/-- `db.delete(task)` for the row found by `first`: removes the first row with
the given id, leaving every other row in place. -/
def Store.deleteFirst : Store → String → Store
  | [], _ => []
  | t :: ts, tid => if t.task_id == tid then ts else t :: Store.deleteFirst ts tid

/-- Observable effects of the service: an outbound HTTP POST, or a committed
status write recording the previous and the new stored status of a task. -/
inductive Event where
  | httpPost (url : String) (body : Json) : Event
  | statusWrite (task_id : String) (old new : ScheduledTaskStatus) : Event
deriving Repr

/-- `SchedulerService.update_task_status_in_db` (`scheduler_service.py` lines
127-141): look the task up by id; if found, set `status`, bump
`updated_at_utc`, and overwrite `execution_result_json` only when the supplied
`result` is truthy (`if result:`); commit. If the task is absent, do nothing.
Returns the updated store and the status writes performed. -/
def update_task_status_in_db (now : Nat) (task_id : String)
    (status : ScheduledTaskStatus) (result : Option Json) :
    Store → Store × List Event
  | [] => ([], [])
  | t :: ts =>
    if t.task_id == task_id then
      ({ t with
          status := status
          updated_at_utc := now
          execution_result_json :=
            if pyTruthy result then result else t.execution_result_json } :: ts,
       [.statusWrite task_id t.status status])
    else
      let rest := update_task_status_in_db now task_id status result ts
      (t :: rest.1, rest.2)

/-- `SchedulerService._get_mcp_base_url` (`scheduler_service.py` lines
233-252). For the five platforms with a `Settings` field it returns the
configured string; for `email` it evaluates `settings.MCP_EMAIL_BASE_URL`,
an attribute `Settings` does not declare, so Python raises `AttributeError`
(modelled as `Except.error`). The function's trailing `return None` is
unreachable: every enum member is handled before it. -/
def get_mcp_base_url (s : Settings) : TargetPlatform → Except String String
  | .email => .error "AttributeError: 'Settings' object has no attribute 'MCP_EMAIL_BASE_URL'"
  | .linkedin => .ok s.MCP_LINKEDIN_BASE_URL
  | .x_twitter => .ok s.MCP_X_BASE_URL
  | .facebook => .ok s.MCP_FACEBOOK_BASE_URL
  | .instagram => .ok s.MCP_INSTAGRAM_BASE_URL
  | .wordpress => .ok s.MCP_WORDPRESS_BASE_URL

/-- An HTTP response as seen by the dispatcher: status code, body text, and
the result of `response.json()` (`none` when the body is not valid JSON, in
which case `.json()` raises a decode error). -/
structure HttpResponse where
  status_code : Nat
  text : String
  jsonBody : Option Json

/-- Outcome of `httpx.AsyncClient.post`: either a response arrived, or the
request failed with a network/timeout error (`httpx.RequestError`). -/
inductive HttpOutcome where
  | response (r : HttpResponse) : HttpOutcome
  | requestError (msg : String) : HttpOutcome

/-- `httpx` success check used by `response.raise_for_status()`: a response
is a success iff its status code is in the 2xx range; `raise_for_status`
raises `httpx.HTTPStatusError` for every non-2xx response. -/
def httpIsSuccess (code : Nat) : Bool := 200 ≤ code && code ≤ 299

/-- The message text of the `httpx.HTTPStatusError` raised by
`raise_for_status`; the claims only rely on it containing the status code. -/
def httpStatusErrorMsg (r : HttpResponse) : String :=
  "status code " ++ toString r.status_code ++ " for url"

/-- The message of the JSON decode error raised by `response.json()` on a
non-JSON body; caught by the generic `except Exception` branch. -/
def jsonDecodeErrorMsg : String := "Expecting value: line 1 column 1 (char 0)"

/-- The process environment a dispatch runs in: the `settings` singleton, the
behaviour of the network (outcome of each POST), and the current UTC clock
used for `datetime.datetime.utcnow()`. -/
structure Env where
  settings : Settings
  http : String → Json → HttpOutcome
  now : Nat

/-- Python `str.rstrip('/')`: remove all trailing slashes. -/
def rstripSlash (s : String) : String :=
  ⟨(s.data.reverse.dropWhile (fun c => c == '/')).reverse⟩

/-- Python `str.lstrip('/')`: remove all leading slashes. -/
def lstripSlash (s : String) : String :=
  ⟨s.data.dropWhile (fun c => c == '/')⟩

/-- The URL built at `scheduler_service.py` line 205:
`f"{base.rstrip('/')}/{endpoint.lstrip('/')}"`. -/
def fullTargetUrl (base endpoint : String) : String :=
  rstripSlash base ++ "/" ++ lstripSlash endpoint

/-- `Json.null` when the payload dict lacks the key (Python `dict.get`
returns `None`, and `client.post(json=None)` posts a JSON null body). -/
def optJson : Option Json → Json
  | none => .null
  | some j => j

/-- Python `str(...)` applied to the value found under
`mcp_target_endpoint`: only a string has `.lstrip`; any other value (or a
missing key, giving `None`) makes line 205 raise `AttributeError`. -/
def endpointString : Option Json → Except String String
  | some (.str s) => .ok s
  | _ => .error "AttributeError: object has no attribute 'lstrip'"

/-- The body of `SchedulerService._execute_task_logic` after the RUNNING
write (`scheduler_service.py` lines 191-231), operating on the store `db₁`
that already holds the RUNNING row. Returns the escaping exception (if
any), the store after all committed writes, and the events performed:

4. `json.loads(task_payload_json).get(...)` — raises if the payload JSON is
   not an object;
5. `_get_mcp_base_url` — raises `AttributeError` for the email platform;
6. falsy base URL → write FAILED with the not-configured result and return;
7. build the target URL — raises if the endpoint value is not a string;
8. POST; 2xx with JSON body → COMPLETED with the parsed body; non-2xx →
   FAILED with the `HTTPStatusError` text and the body as details; network
   error → FAILED with the `RequestError` text; 2xx whose body fails JSON
   decoding → the generic `except Exception` branch, FAILED with an
   "Unexpected error" result. -/
def dispatchAfterRunning (env : Env) (task_id : String)
    (task : ScheduledTaskTable) (db₁ : Store) :
    Except String Unit × Store × List Event :=
  match task.task_payload_json.dictGet "mcp_target_endpoint",
        task.task_payload_json.dictGet "mcp_request_body" with
  | .error e, _ => (.error e, db₁, [])
  | _, .error e => (.error e, db₁, [])
  | .ok endpointOpt, .ok bodyOpt =>
    match get_mcp_base_url env.settings task.platform_name with
    | .error e => (.error e, db₁, [])
    | .ok url =>
      if url == "" then
        (.ok (),
         (update_task_status_in_db env.now task_id .failed
           (some (.obj [("error", .str ("Target MCP base URL not configured for platform "
             ++ task.platform_name.value))])) db₁).1,
         (update_task_status_in_db env.now task_id .failed
           (some (.obj [("error", .str ("Target MCP base URL not configured for platform "
             ++ task.platform_name.value))])) db₁).2)
      else
        match endpointString endpointOpt with
        | .error e => (.error e, db₁, [])
        | .ok endpoint =>
          match env.http (fullTargetUrl url endpoint) (optJson bodyOpt) with
          | .requestError msg =>
            (.ok (),
             (update_task_status_in_db env.now task_id .failed
               (some (.obj [("error", .str ("Request error: " ++ msg))])) db₁).1,
             .httpPost (fullTargetUrl url endpoint) (optJson bodyOpt) ::
               (update_task_status_in_db env.now task_id .failed
                 (some (.obj [("error", .str ("Request error: " ++ msg))])) db₁).2)
          | .response r =>
            if httpIsSuccess r.status_code then
              match r.jsonBody with
              | some parsed =>
                (.ok (),
                 (update_task_status_in_db env.now task_id .completed (some parsed) db₁).1,
                 .httpPost (fullTargetUrl url endpoint) (optJson bodyOpt) ::
                   (update_task_status_in_db env.now task_id .completed (some parsed) db₁).2)
              | none =>
                (.ok (),
                 (update_task_status_in_db env.now task_id .failed
                   (some (.obj [("error", .str ("Unexpected error: " ++ jsonDecodeErrorMsg))])) db₁).1,
                 .httpPost (fullTargetUrl url endpoint) (optJson bodyOpt) ::
                   (update_task_status_in_db env.now task_id .failed
                     (some (.obj [("error", .str ("Unexpected error: " ++ jsonDecodeErrorMsg))])) db₁).2)
            else
              (.ok (),
               (update_task_status_in_db env.now task_id .failed
                 (some (.obj [("error", .str ("HTTP error: " ++ httpStatusErrorMsg r)),
                              ("details", .str r.text)])) db₁).1,
               .httpPost (fullTargetUrl url endpoint) (optJson bodyOpt) ::
                 (update_task_status_in_db env.now task_id .failed
                   (some (.obj [("error", .str ("HTTP error: " ++ httpStatusErrorMsg r)),
                                ("details", .str r.text)])) db₁).2)

/-- `SchedulerService._execute_task_logic` (`scheduler_service.py` lines
178-231), as a state transformer:

1. query the task by id; absent → log and return (no writes);
2. status not PENDING and not RUNNING → log and return (no writes);
3. write RUNNING (`update_task_status_in_db`);
4.-8. `dispatchAfterRunning` above. -/
def execute_task_logic (env : Env) (task_id : String) (db : Store) :
    Except String Unit × Store × List Event :=
  match db.first task_id with
  | none => (.ok (), db, [])
  | some task =>
    if task.status != .pending && task.status != .running then
      (.ok (), db, [])
    else
      match dispatchAfterRunning env task_id task
        (update_task_status_in_db env.now task_id .running none db).1 with
      | (res, db₂, ev₂) =>
        (res, db₂, (update_task_status_in_db env.now task_id .running none db).2 ++ ev₂)

/-- `SchedulerService.execute_scheduled_task_job` (`scheduler_service.py`
lines 163-176): run `_execute_task_logic`; any exception it raises is caught
and converted into a FAILED status write with a
`"Job execution wrapper error: ..."` result. -/
def execute_scheduled_task_job (env : Env) (task_id : String) (db : Store) :
    Store × List Event :=
  match execute_task_logic env task_id db with
  | (.ok _, db', ev) => (db', ev)
  | (.error e, db', ev) =>
    let fail := update_task_status_in_db env.now task_id .failed
      (some (.obj [("error", .str ("Job execution wrapper error: " ++ e))])) db'
    (fail.1, ev ++ fail.2)

/-- The APScheduler job registration performed by `create_task`
(`scheduler_service.py` lines 91-99): a one-shot `'date'` trigger at the
task's `scheduled_at_utc` with `misfire_grace_time=3600`. -/
structure JobRegistration where
  run_date : Nat
  misfire_grace_time : Nat

/-- The registration `scheduler.add_job(...)` stores for a task scheduled at
`scheduled_at_utc` (the literal arguments at the call site). -/
def add_job (scheduled_at_utc : Nat) : JobRegistration :=
  { run_date := scheduled_at_utc, misfire_grace_time := 3600 }

/-- APScheduler's misfire check for a due run
(`apscheduler.executors.base.run_job`, the executor the configured scheduler
uses): the callback is invoked iff `now - run_time` does not exceed the
job's `misfire_grace_time`; otherwise the run is recorded as
`EVENT_JOB_MISSED` and the callback is never invoked. -/
def runDueJob (job : JobRegistration) (now : Nat) : Bool :=
  now - job.run_date ≤ job.misfire_grace_time

/-- Processing of a due job for a scheduled task: if the misfire check
passes, the registered callback `execute_scheduled_task_job` runs
immediately; if not, the run is skipped — no callback, no writes, no calls. -/
def process_due_job (env : Env) (job : JobRegistration) (task_id : String)
    (now : Nat) (db : Store) : Store × List Event :=
  if runDueJob job now then execute_scheduled_task_job env task_id db
  else (db, [])

/-- `SchedulerService.create_task` (`scheduler_service.py` lines 62-106).
The first statement after logging is the ORM constructor call
`ScheduledTaskTable(task_id=..., ..., task_type=task_in.task_type)`; since
`task_type` is not a mapped attribute of `ScheduledTaskTable`
(`app/db/models.py` maps no such column), SQLAlchemy's declarative
constructor raises `TypeError` there, before `db.add`/`commit`, so no row is
written and no job is registered. Had the constructor accepted the keyword
arguments, the function would persist the PENDING row and register the
date-trigger job; that branch is included for fidelity but is unreachable. -/
def create_task (req : CreateScheduledTaskRequest) (task_id : String)
    (now : Nat) (db : Store) :
    Except String (ScheduledTaskTable × Store × List JobRegistration) :=
  if declarativeConstructorAccepts then
    let row : ScheduledTaskTable :=
      { task_id := task_id
        genia_user_id := req.genia_user_id
        platform_name := req.platform_identifier.platform_name
        account_id := req.platform_identifier.account_id
        scheduled_at_utc := req.scheduled_at_utc
        status := .pending
        task_payload_json := req.task_payload.model_dump_json
        user_platform_tokens_json := req.task_payload.user_platform_tokens
        created_at_utc := now
        updated_at_utc := now
        execution_result_json := none }
    .ok (row, db ++ [row], [add_job req.scheduled_at_utc])
  else
    .error "TypeError: 'task_type' is an invalid keyword argument for ScheduledTaskTable"

/-- `SchedulerService.delete_task` (`scheduler_service.py` lines 143-161):
look the task up; if absent, return `False` touching nothing; if present,
remove the APScheduler job (a `JobLookupError` for an unknown job id is
caught and ignored), delete the row, commit, return `True`. `jobs` is the
scheduler's registry of job ids. -/
def delete_task (task_id : String) (db : Store) (jobs : List String) :
    Bool × Store × List String :=
  match db.first task_id with
  | some _ => (true, db.deleteFirst task_id, jobs.erase task_id)
  | none => (false, db, jobs)

/-- Result of an API endpoint: a successful `MCPResponse` message or an
`HTTPException` with a status code and detail. -/
inductive ApiResult where
  | ok (message : String) : ApiResult
  | httpError (status_code : Nat) (detail : String) : ApiResult
deriving Repr, DecidableEq

/-- `DELETE /tasks/{task_id}` (`api_router.py` lines 138-149): call
`delete_task`; a `False` return becomes a 404 `HTTPException`, a `True`
return a success message. -/
def api_delete_task (task_id : String) (db : Store) (jobs : List String) :
    ApiResult × Store × List String :=
  let r := delete_task task_id db jobs
  if r.1 then (.ok "Task cancelled successfully.", r.2.1, r.2.2)
  else (.httpError 404 "Task not found or could not be deleted", r.2.1, r.2.2)

/-- The durable state of the process: the `scheduled_tasks` table and
APScheduler's own `apscheduler_jobs` table (job ids). -/
structure SystemState where
  tasks : Store
  jobs : List String

/-- `create_db_and_tables` (`app/db/session.py` lines 23-65), run by the
FastAPI startup hook (`app/main.py` line 30): `ALTER TYPE` (no row effect),
then `DROP TABLE IF EXISTS scheduled_tasks CASCADE`, then
`Base.metadata.create_all` which recreates an *empty* `scheduled_tasks`
table and leaves any existing table (such as APScheduler's job table)
untouched. No query of the task store and no trigger re-registration is
performed anywhere in startup. -/
def create_db_and_tables (st : SystemState) : SystemState :=
  { st with tasks := [] }

/-- The status edges permitted by the specification's state machine (§4.4):
PENDING→RUNNING, RUNNING→COMPLETED, RUNNING→FAILED, PENDING→CANCELLED,
RUNNING→CANCELLED. -/
def allowedEdge : ScheduledTaskStatus → ScheduledTaskStatus → Bool
  | .pending, .running => true
  | .running, .completed => true
  | .running, .failed => true
  | .pending, .cancelled => true
  | .running, .cancelled => true
  | _, _ => false

/-- The operations the service exposes that can touch a task's stored state:
creation, a trigger firing (dispatch), and cancellation/deletion.
`update_task_status_in_db` is internal; its only callers are the dispatch
path functions embedded above. -/
inductive Op where
  | createOp (req : CreateScheduledTaskRequest) (task_id : String) : Op
  | dispatchOp (task_id : String) : Op
  | deleteOp (task_id : String) : Op

/-- One operation applied to the durable state, with the events performed.
`createOp` raises `TypeError` in the ORM constructor before any write (see
`create_task`), so it leaves the state unchanged. -/
def applyOp (env : Env) (op : Op) (st : SystemState) : SystemState × List Event :=
  match op with
  | .createOp req task_id =>
    match create_task req task_id env.now st.tasks with
    | .ok (_, db', regs) => ({ tasks := db', jobs := st.jobs ++ regs.map (fun _ => task_id) }, [])
    | .error _ => (st, [])
  | .dispatchOp task_id =>
    let r := execute_scheduled_task_job env task_id st.tasks
    ({ st with tasks := r.1 }, r.2)
  | .deleteOp task_id =>
    let r := delete_task task_id st.tasks st.jobs
    ({ tasks := r.2.1, jobs := r.2.2 }, [])

/-- A sequence of operations applied in order; events are concatenated. -/
def applyOps (env : Env) : List Op → SystemState → SystemState × List Event
  | [], st => (st, [])
  | op :: ops, st =>
    let r := applyOp env op st
    let rest := applyOps env ops r.1
    (rest.1, r.2 ++ rest.2)

/-- The stored status of a task, if present. -/
def statusOf (db : Store) (task_id : String) : Option ScheduledTaskStatus :=
  (db.first task_id).map (fun t => t.status)

/-- The stored execution result of a task, if present and set. -/
def resultOf (db : Store) (task_id : String) : Option Json :=
  (db.first task_id).bind (fun t => t.execution_result_json)

/-- Whether an event is an outbound HTTP POST. -/
def Event.isPost : Event → Bool
  | .httpPost _ _ => true
  | .statusWrite _ _ _ => false

/-- A well-formed stored payload document, as `create_task` would have
persisted for payload `{endpoint: "/send", body: {"x": 1}}`. -/
def samplePayloadJson : Json :=
  .obj [("mcp_target_endpoint", .str "/send"),
        ("mcp_request_body", .obj [("x", .num 1)]),
        ("user_platform_tokens", .obj [])]

/-- A concrete stored task row with the given platform and status, used to
instantiate the theorems below on closed inputs. -/
def mkTask (pf : TargetPlatform) (st : ScheduledTaskStatus) : ScheduledTaskTable :=
  { task_id := "t1"
    genia_user_id := "u1"
    platform_name := pf
    account_id := "a1"
    scheduled_at_utc := 100
    status := st
    task_payload_json := samplePayloadJson
    user_platform_tokens_json := .obj []
    created_at_utc := 50
    updated_at_utc := 50
    execution_result_json := none }

/-- A concrete environment whose stub endpoint answers 200 with body
`{"sent": true}`. -/
def envOk : Env :=
  { settings := {}
    http := fun _ _ => .response
      { status_code := 200, text := "\x7b\"sent\": true\x7d",
        jsonBody := some (.obj [("sent", .bool true)]) }
    now := 500 }

/-- A concrete environment whose stub endpoint answers 500 with a plain-text
body. -/
def envFail : Env :=
  { settings := {}
    http := fun _ _ => .response
      { status_code := 500, text := "boom", jsonBody := none }
    now := 500 }

/-- A concrete environment whose stub endpoint answers 200 with the empty
JSON object `{}` — a falsy value under Python truthiness. -/
def envEmptyBody : Env :=
  { settings := {}
    http := fun _ _ => .response
      { status_code := 200, text := "\x7b\x7d", jsonBody := some (.obj []) }
    now := 500 }

/-- A concrete create request with payload `{endpoint: "/send", body:
{"x": 1}}`, as in the specification's round-trip property. -/
def sampleRequest : CreateScheduledTaskRequest :=
  { genia_user_id := "u1"
    platform_identifier := { platform_name := .linkedin, account_id := "a1" }
    scheduled_at_utc := 100
    task_payload :=
      { mcp_target_endpoint := "/send"
        mcp_request_body := .obj [("x", .num 1)]
        user_platform_tokens := .obj [] } }

/-- A durable state holding one PENDING task and its job registration, as it
would stand before a process restart. -/
def samplePendingState : SystemState :=
  { tasks := [mkTask .linkedin .pending], jobs := ["t1"] }

/-- A stored task whose payload column does not hold a JSON object, making
step 4 of the dispatch raise `AttributeError`. -/
def badPayloadTask : ScheduledTaskTable :=
  { mkTask .linkedin .pending with task_payload_json := .num 5 }

/-- The row produced by a successful `update_task_status_in_db` write. -/
def updatedRow (now : Nat) (status : ScheduledTaskStatus) (result : Option Json)
    (t : ScheduledTaskTable) : ScheduledTaskTable :=
  { t with
      status := status
      updated_at_utc := now
      execution_result_json :=
        if pyTruthy result then result else t.execution_result_json }

theorem update_of_first_none (now : Nat) (tid : String)
    (s : ScheduledTaskStatus) (r : Option Json) (db : Store)
    (h : db.first tid = none) :
    update_task_status_in_db now tid s r db = (db, []) := by
  induction db with
  | nil => rfl
  | cons t ts ih =>
    simp only [Store.first] at h
    simp only [update_task_status_in_db]
    by_cases ht : (t.task_id == tid) = true
    · simp [ht] at h
    · simp only [ht, Bool.false_eq_true, if_false] at h ⊢
      simp [ih h]

theorem update_of_first_some (now : Nat) (tid : String)
    (s : ScheduledTaskStatus) (r : Option Json) (db : Store)
    (t : ScheduledTaskTable) (h : db.first tid = some t) :
    (update_task_status_in_db now tid s r db).1.first tid
        = some (updatedRow now s r t)
      ∧ (update_task_status_in_db now tid s r db).2
        = [.statusWrite tid t.status s] := by
  induction db with
  | nil => simp [Store.first] at h
  | cons u ts ih =>
    simp only [Store.first] at h
    simp only [update_task_status_in_db]
    by_cases hu : (u.task_id == tid) = true
    · simp only [hu, if_true] at h ⊢
      cases h
      constructor
      · simp [Store.first, updatedRow, hu]
      · rfl
    · simp only [hu, Bool.false_eq_true, if_false] at h ⊢
      have := ih h
      constructor
      · simp only [Store.first, hu, Bool.false_eq_true, if_false]
        exact this.1
      · exact this.2

theorem update_first_other (now : Nat) (tid tid' : String)
    (s : ScheduledTaskStatus) (r : Option Json) (db : Store)
    (h : (tid' == tid) = false) :
    (update_task_status_in_db now tid s r db).1.first tid' = db.first tid' := by
  induction db with
  | nil => rfl
  | cons u ts ih =>
    simp only [update_task_status_in_db]
    by_cases hu : (u.task_id == tid) = true
    · have hne : (u.task_id == tid') = false := by
        rcases beq_iff_eq.mp hu with rfl
        cases hbe : (u.task_id == tid') with
        | false => rfl
        | true =>
          rcases beq_iff_eq.mp hbe with h2
          rw [h2] at h
          simp at h
      simp [hu, Store.first, hne]
    · simp only [hu, Bool.false_eq_true, if_false]
      simp only [Store.first]
      by_cases hv : (u.task_id == tid') = true
      · simp [hv]
      · simp [hv, ih]

theorem logic_skip (env : Env) (tid : String) (db : Store)
    (h : ∀ t, db.first tid = some t →
      t.status ≠ ScheduledTaskStatus.pending ∧ t.status ≠ ScheduledTaskStatus.running) :
    execute_task_logic env tid db = (.ok (), db, []) := by
  unfold execute_task_logic
  cases hf : db.first tid with
  | none => rfl
  | some t =>
    have ht := h t hf
    have hguard : (t.status != ScheduledTaskStatus.pending
        && t.status != ScheduledTaskStatus.running) = true := by
      simp only [Bool.and_eq_true, bne_iff_ne]
      exact ht
    simp [hguard]

theorem logic_eq_of_active (env : Env) (tid : String) (db : Store)
    (t : ScheduledTaskTable) (hf : db.first tid = some t)
    (hs : t.status = ScheduledTaskStatus.pending ∨ t.status = ScheduledTaskStatus.running) :
    execute_task_logic env tid db =
      ((dispatchAfterRunning env tid t
          (update_task_status_in_db env.now tid .running none db).1).1,
       (dispatchAfterRunning env tid t
          (update_task_status_in_db env.now tid .running none db).1).2.1,
       (update_task_status_in_db env.now tid .running none db).2 ++
         (dispatchAfterRunning env tid t
            (update_task_status_in_db env.now tid .running none db).1).2.2) := by
  unfold execute_task_logic
  rw [hf]
  have hguard : (t.status != ScheduledTaskStatus.pending
      && t.status != ScheduledTaskStatus.running) = false := by
    rcases hs with h | h <;> rw [h] <;> rfl
  simp [hguard]

theorem dispatchAfterRunning_spec (env : Env) (tid : String)
    (task : ScheduledTaskTable) (db₁ : Store) :
    (∃ e, dispatchAfterRunning env tid task db₁ = (.error e, db₁, [])) ∨
    (∃ st r ev,
      (st = ScheduledTaskStatus.failed ∨ st = ScheduledTaskStatus.completed) ∧
      dispatchAfterRunning env tid task db₁ =
        (.ok (), (update_task_status_in_db env.now tid st r db₁).1, ev) ∧
      ∀ x ∈ ev, x.isPost = true ∨ x ∈ (update_task_status_in_db env.now tid st r db₁).2) := by
  unfold dispatchAfterRunning
  rcases h1 : task.task_payload_json.dictGet "mcp_target_endpoint" with e1 | endpointOpt <;>
    rcases h2 : task.task_payload_json.dictGet "mcp_request_body" with e2 | bodyOpt <;>
      simp only [h1, h2]
  · exact .inl ⟨e1, rfl⟩
  · exact .inl ⟨e1, rfl⟩
  · exact .inl ⟨e2, rfl⟩
  · rcases h3 : get_mcp_base_url env.settings task.platform_name with e3 | url <;>
      simp only [h3]
    · exact .inl ⟨e3, rfl⟩
    · by_cases h4 : (url == "") = true
      · simp only [h4, if_true]
        exact .inr ⟨.failed,
          some (.obj [("error", .str ("Target MCP base URL not configured for platform "
            ++ task.platform_name.value))]),
          (update_task_status_in_db env.now tid .failed
            (some (.obj [("error", .str ("Target MCP base URL not configured for platform "
              ++ task.platform_name.value))])) db₁).2,
          .inl rfl, rfl, fun x hx => .inr hx⟩
      · simp only [h4, Bool.false_eq_true, if_false]
        rcases h5 : endpointString endpointOpt with e5 | endpoint <;> simp only [h5]
        · exact .inl ⟨e5, rfl⟩
        · rcases h6 : env.http (fullTargetUrl url endpoint) (optJson bodyOpt) with resp | msg <;>
            simp only [h6]
          · by_cases h7 : httpIsSuccess resp.status_code = true
            · simp only [h7, if_true]
              rcases h8 : resp.jsonBody with _ | parsed <;> simp only [h8]
              · refine .inr ⟨.failed,
                  some (.obj [("error", .str ("Unexpected error: " ++ jsonDecodeErrorMsg))]),
                  .httpPost (fullTargetUrl url endpoint) (optJson bodyOpt) ::
                    (update_task_status_in_db env.now tid .failed
                      (some (.obj [("error", .str ("Unexpected error: " ++ jsonDecodeErrorMsg))])) db₁).2,
                  .inl rfl, rfl, ?_⟩
                intro x hx
                rcases List.mem_cons.mp hx with hx | hx
                · exact .inl (by rw [hx]; rfl)
                · exact .inr hx
              · refine .inr ⟨.completed, some parsed,
                  .httpPost (fullTargetUrl url endpoint) (optJson bodyOpt) ::
                    (update_task_status_in_db env.now tid .completed (some parsed) db₁).2,
                  .inr rfl, rfl, ?_⟩
                intro x hx
                rcases List.mem_cons.mp hx with hx | hx
                · exact .inl (by rw [hx]; rfl)
                · exact .inr hx
            · simp only [h7, Bool.false_eq_true, if_false]
              refine .inr ⟨.failed,
                some (.obj [("error", .str ("HTTP error: " ++ httpStatusErrorMsg resp)),
                            ("details", .str resp.text)]),
                .httpPost (fullTargetUrl url endpoint) (optJson bodyOpt) ::
                  (update_task_status_in_db env.now tid .failed
                    (some (.obj [("error", .str ("HTTP error: " ++ httpStatusErrorMsg resp)),
                                 ("details", .str resp.text)])) db₁).2,
                .inl rfl, rfl, ?_⟩
              intro x hx
              rcases List.mem_cons.mp hx with hx | hx
              · exact .inl (by rw [hx]; rfl)
              · exact .inr hx
          · refine .inr ⟨.failed,
              some (.obj [("error", .str ("Request error: " ++ msg))]),
              .httpPost (fullTargetUrl url endpoint) (optJson bodyOpt) ::
                (update_task_status_in_db env.now tid .failed
                  (some (.obj [("error", .str ("Request error: " ++ msg))])) db₁).2,
              .inl rfl, rfl, ?_⟩
            intro x hx
            rcases List.mem_cons.mp hx with hx | hx
            · exact .inl (by rw [hx]; rfl)
            · exact .inr hx

theorem logic_error_shape (env : Env) (tid : String) (db : Store) (e : String)
    (h : (execute_task_logic env tid db).1 = .error e) :
    ∃ t, db.first tid = some t ∧
      (t.status = ScheduledTaskStatus.pending ∨ t.status = ScheduledTaskStatus.running) ∧
      execute_task_logic env tid db =
        (.error e, (update_task_status_in_db env.now tid .running none db).1,
         [.statusWrite tid t.status .running]) := by
  cases hf : db.first tid with
  | none =>
    have hsk := logic_skip env tid db (fun t' ht' => by rw [hf] at ht'; cases ht')
    rw [hsk] at h
    simp at h
  | some t =>
    by_cases hact : t.status = ScheduledTaskStatus.pending
        ∨ t.status = ScheduledTaskStatus.running
    · have hlogic := logic_eq_of_active env tid db t hf hact
      have hup := update_of_first_some env.now tid .running none db t hf
      rcases dispatchAfterRunning_spec env tid t
          (update_task_status_in_db env.now tid .running none db).1 with
        ⟨e', hd⟩ | ⟨st, r, ev, hst, hd, hev⟩
      · rw [hlogic, hd] at h ⊢
        simp only at h
        cases h
        exact ⟨t, rfl, hact, by rw [hup.2]; simp⟩
      · rw [hlogic, hd] at h
        simp at h
    · have hne : t.status ≠ ScheduledTaskStatus.pending
          ∧ t.status ≠ ScheduledTaskStatus.running := by
        constructor <;> intro hc
        · exact hact (Or.inl hc)
        · exact hact (Or.inr hc)
      have hsk := logic_skip env tid db (fun t' ht' => by
        rw [hf] at ht'; cases ht'; exact hne)
      rw [hsk] at h
      simp at h

theorem dispatch_active_final (env : Env) (tid : String) (db : Store)
    (t : ScheduledTaskTable) (hf : db.first tid = some t)
    (hs : t.status = ScheduledTaskStatus.pending ∨ t.status = ScheduledTaskStatus.running) :
    ∃ t', (execute_scheduled_task_job env tid db).1.first tid = some t' ∧
      (t'.status = ScheduledTaskStatus.completed ∨ t'.status = ScheduledTaskStatus.failed) := by
  have hlogic := logic_eq_of_active env tid db t hf hs
  have hup := update_of_first_some env.now tid .running none db t hf
  rcases dispatchAfterRunning_spec env tid t
      (update_task_status_in_db env.now tid .running none db).1 with
    ⟨e, hd⟩ | ⟨st, r, ev, hst, hd, hev⟩
  · unfold execute_scheduled_task_job
    rw [hlogic, hd]
    simp only
    have hup₂ := update_of_first_some env.now tid .failed
      (some (.obj [("error", .str ("Job execution wrapper error: " ++ e))]))
      (update_task_status_in_db env.now tid .running none db).1 _ hup.1
    exact ⟨_, hup₂.1, .inr rfl⟩
  · unfold execute_scheduled_task_job
    rw [hlogic, hd]
    simp only
    have hup₂ := update_of_first_some env.now tid st r
      (update_task_status_in_db env.now tid .running none db).1 _ hup.1
    rcases hst with h | h
    · exact ⟨_, hup₂.1, .inr (by rw [updatedRow, h])⟩
    · exact ⟨_, hup₂.1, .inl (by rw [updatedRow, h])⟩

theorem wrapper_of_ok (env : Env) (tid : String) (db db' : Store) (ev : List Event)
    (h : execute_task_logic env tid db = (.ok (), db', ev)) :
    execute_scheduled_task_job env tid db = (db', ev) := by
  unfold execute_scheduled_task_job
  rw [h]

theorem create_task_always_errors (req : CreateScheduledTaskRequest)
    (task_id : String) (now : Nat) (db : Store) :
    create_task req task_id now db =
      .error "TypeError: 'task_type' is an invalid keyword argument for ScheduledTaskTable" := by
  unfold create_task
  rfl

theorem dispatch_events_allowed (env : Env) (tid : String) (db : Store) :
    ∀ tid' o n, Event.statusWrite tid' o n ∈ (execute_scheduled_task_job env tid db).2 →
      o = n ∨ allowedEdge o n = true := by
  intro tid' o n hmem
  cases hf : db.first tid with
  | none =>
    have hsk := logic_skip env tid db (fun t' ht' => by rw [hf] at ht'; cases ht')
    rw [wrapper_of_ok env tid db db [] hsk] at hmem
    simp at hmem
  | some t =>
    by_cases hact : t.status = ScheduledTaskStatus.pending
        ∨ t.status = ScheduledTaskStatus.running
    · have hup := update_of_first_some env.now tid .running none db t hf
      have hlogic := logic_eq_of_active env tid db t hf hact
      have hfirst_write : ∀ x, x = Event.statusWrite tid t.status ScheduledTaskStatus.running →
          o = n ∨ allowedEdge o n = true → True := fun _ _ _ => trivial
      rcases dispatchAfterRunning_spec env tid t
          (update_task_status_in_db env.now tid .running none db).1 with
        ⟨e, hd⟩ | ⟨st, r, ev, hst, hd, hev⟩
      · unfold execute_scheduled_task_job at hmem
        rw [hlogic, hd] at hmem
        simp only at hmem
        have hupF := update_of_first_some env.now tid .failed
          (some (.obj [("error", .str ("Job execution wrapper error: " ++ e))]))
          (update_task_status_in_db env.now tid .running none db).1 _ hup.1
        rw [hup.2, hupF.2] at hmem
        simp only [List.append_nil, List.mem_append, List.mem_singleton,
          Event.statusWrite.injEq] at hmem
        rcases hmem with hmem | hmem
        · rcases hmem with ⟨h1, h2, h3⟩
          rcases hact with ha | ha
          · subst h2; subst h3; rw [ha]; exact .inr rfl
          · subst h2; subst h3; rw [ha]; exact .inl rfl
        · rcases hmem with ⟨h1, h2, h3⟩
          subst h2; subst h3
          exact .inr rfl
      · have hwr := wrapper_of_ok env tid db _ _ (by rw [hlogic, hd])
        rw [hwr] at hmem
        simp only [List.mem_append] at hmem
        rcases hmem with hmem | hmem
        · rw [hup.2] at hmem
          simp only [List.mem_singleton, Event.statusWrite.injEq] at hmem
          rcases hmem with ⟨h1, h2, h3⟩
          rcases hact with ha | ha
          · subst h2; subst h3; rw [ha]; exact .inr rfl
          · subst h2; subst h3; rw [ha]; exact .inl rfl
        · rcases hev _ hmem with hpost | hmem₂
          · simp [Event.isPost] at hpost
          · have hupS := update_of_first_some env.now tid st r
              (update_task_status_in_db env.now tid .running none db).1 _ hup.1
            rw [hupS.2] at hmem₂
            simp only [List.mem_singleton, Event.statusWrite.injEq] at hmem₂
            rcases hmem₂ with ⟨h1, h2, h3⟩
            subst h2; subst h3
            rcases hst with h | h <;> rw [h] <;> exact .inr rfl
    · have hne : t.status ≠ ScheduledTaskStatus.pending
          ∧ t.status ≠ ScheduledTaskStatus.running := by
        constructor <;> intro hc
        · exact hact (Or.inl hc)
        · exact hact (Or.inr hc)
      have hsk := logic_skip env tid db (fun t' ht' => by
        rw [hf] at ht'; cases ht'; exact hne)
      rw [wrapper_of_ok env tid db db [] hsk] at hmem
      simp at hmem

/-- C1 counterexample: `create_task` registers every job with
`misfire_grace_time = 3600`; under APScheduler's misfire check, a fire whose
`trigger_at` lies 2 hours in the past fails the grace check, so the callback
never runs: the task is not dispatched at all and the store is untouched,
contradicting "the callback still fires and the task is dispatched
immediately; the grace window never causes a missed fire to be dropped". -/
theorem past_grace_fire_dropped :
    runDueJob (add_job 0) 7200 = false ∧
    process_due_job envOk (add_job 0) "t1" 7200 [mkTask .linkedin .pending] =
      ([mkTask .linkedin .pending], []) :=
  ⟨rfl, rfl⟩

/-- C1 (amended): a missed fire is honored — the callback runs immediately
and moves the pending task out of PENDING to a terminal status — only when
the delay since `trigger_at` is at most the one-hour grace window
(`misfire_grace_time = 3600`); a fire missed by more than the grace window
is dropped: the callback never runs and the task is left untouched. -/
theorem misfire_grace_policy (env : Env) (s : Nat) (tid : String) (now : Nat)
    (db : Store) (t : ScheduledTaskTable)
    (hf : db.first tid = some t) (hs : t.status = ScheduledTaskStatus.pending) :
    (now - s ≤ 3600 →
      ∃ t', (process_due_job env (add_job s) tid now db).1.first tid = some t' ∧
        (t'.status = ScheduledTaskStatus.completed ∨
         t'.status = ScheduledTaskStatus.failed)) ∧
    (3600 < now - s →
      process_due_job env (add_job s) tid now db = (db, [])) := by
  constructor
  · intro hle
    have hrun : runDueJob (add_job s) now = true := by
      simp only [runDueJob, add_job, decide_eq_true_eq]
      exact hle
    simp only [process_due_job, hrun, if_true]
    exact dispatch_active_final env tid db t hf (.inl hs)
  · intro hgt
    have hrun : runDueJob (add_job s) now = false := by
      simp only [runDueJob, add_job, decide_eq_false_iff_not]
      omega
    simp only [process_due_job, hrun, Bool.false_eq_true, if_false]

/-- C1 (amended) witness: a fire missed by 30 minutes is honored and the
concrete pending task is dispatched to a terminal status. -/
theorem misfire_grace_policy_witness :
    ∃ t', (process_due_job envOk (add_job 0) "t1" 1800
        [mkTask .linkedin .pending]).1.first "t1" = some t' ∧
      (t'.status = ScheduledTaskStatus.completed ∨
       t'.status = ScheduledTaskStatus.failed) :=
  (misfire_grace_policy envOk 0 "t1" 1800 [mkTask .linkedin .pending]
    (mkTask .linkedin .pending) rfl rfl).1 (by decide)

/-- C2 counterexample: a task durably stored as PENDING before a restart is
erased by the startup procedure — `create_db_and_tables` drops and
recreates the `scheduled_tasks` table — rather than re-registered, so a
PENDING task does not survive a process restart. -/
theorem pending_task_lost_on_startup :
    samplePendingState.tasks.first "t1" = some (mkTask .linkedin .pending) ∧
    statusOf (create_db_and_tables samplePendingState).tasks "t1" = none :=
  ⟨rfl, rfl⟩

/-- C2 (amended): the startup procedure performs no reconciliation from the
task store; it drops and recreates the `scheduled_tasks` table, erasing
every persisted task (PENDING included), and leaves only APScheduler's own
job-store rows in place. -/
theorem startup_clears_task_store (st : SystemState) :
    (create_db_and_tables st).tasks = [] ∧
    (create_db_and_tables st).jobs = st.jobs :=
  ⟨rfl, rfl⟩

/-- C5: when the fire callback runs for a task id whose stored record is
absent, or whose status is neither PENDING nor RUNNING, execution is
skipped entirely: the store is returned unchanged and no event — neither a
status write nor an outbound call — is performed. -/
theorem fire_on_inactive_status_skips (env : Env) (tid : String) (db : Store)
    (h : ∀ t, db.first tid = some t →
      t.status ≠ ScheduledTaskStatus.pending ∧ t.status ≠ ScheduledTaskStatus.running) :
    execute_scheduled_task_job env tid db = (db, []) :=
  wrapper_of_ok env tid db db [] (logic_skip env tid db h)

/-- C5 witness: firing the callback on a concrete COMPLETED task leaves the
store unchanged and performs no event. -/
theorem fire_on_inactive_status_skips_witness :
    execute_scheduled_task_job envOk "t1" [mkTask .linkedin .completed] =
      ([mkTask .linkedin .completed], []) :=
  fire_on_inactive_status_skips envOk "t1" [mkTask .linkedin .completed]
    (fun t ht => by
      rw [show Store.first [mkTask .linkedin .completed] "t1"
          = some (mkTask .linkedin .completed) from rfl] at ht
      cases ht
      exact ⟨by decide, by decide⟩)

/-- C9: the round-trip cannot even start — `create_task` passes the keyword
argument `task_type` to the `ScheduledTaskTable` constructor, but
`app/db/models.py` maps no `task_type` column, so SQLAlchemy raises
`TypeError` before the row is written: creating the specification's
round-trip task `{endpoint: "/send", body: {"x": 1}}` fails and there is no
id to fetch. -/
theorem create_task_raises_type_error :
    create_task sampleRequest "task-1" 0 [] =
      .error "TypeError: 'task_type' is an invalid keyword argument for ScheduledTaskTable" :=
  create_task_always_errors sampleRequest "task-1" 0 []

/-- C10: for an existing task, `update_task_status_in_db` rewrites exactly
the `status`, `updated_at_utc` and — only when the supplied result is
truthy — `execution_result_json` fields, keeping every other field of the
row (and every other row) unchanged; a falsy result (`None` or an empty
dict) leaves the previously stored `execution_result_json` as-is. -/
theorem update_status_frame (now : Nat) (tid : String)
    (s : ScheduledTaskStatus) (r : Option Json) (db : Store)
    (t : ScheduledTaskTable) (h : db.first tid = some t) :
    (update_task_status_in_db now tid s r db).1.first tid =
      some { t with
        status := s
        updated_at_utc := now
        execution_result_json :=
          if pyTruthy r then r else t.execution_result_json } ∧
    ∀ tid', (tid' == tid) = false →
      (update_task_status_in_db now tid s r db).1.first tid' = db.first tid' := by
  constructor
  · rw [(update_of_first_some now tid s r db t h).1]
    rfl
  · intro tid' hne
    exact update_first_other now tid tid' s r db hne

/-- C10 witness: updating the concrete pending task to RUNNING with result
`None` bumps only `status` and `updated_at_utc` and keeps the stored
`execution_result_json`. -/
theorem update_status_frame_witness :
    (update_task_status_in_db 777 "t1" .running none
        [mkTask .linkedin .pending]).1.first "t1" =
      some { mkTask .linkedin .pending with
        status := .running
        updated_at_utc := 777
        execution_result_json :=
          if pyTruthy none then none
          else (mkTask .linkedin .pending).execution_result_json } :=
  (update_status_frame 777 "t1" .running none [mkTask .linkedin .pending]
    (mkTask .linkedin .pending) rfl).1

/-- C4: over any sequence of service operations — creations, trigger fires
(dispatches) and cancellations/deletions — every committed status write
either leaves the status unchanged or moves it along an edge of the §4.4
state machine; in particular no write leaves a terminal status and no write
jumps from PENDING directly to COMPLETED or FAILED. -/
theorem status_changes_follow_edges (env : Env) (ops : List Op) (st : SystemState) :
    ∀ tid o n, Event.statusWrite tid o n ∈ (applyOps env ops st).2 →
      o = n ∨ allowedEdge o n = true := by
  induction ops generalizing st with
  | nil =>
    intro tid o n h
    simp [applyOps] at h
  | cons op ops ih =>
    intro tid o n h
    simp only [applyOps, List.mem_append] at h
    rcases h with h | h
    · cases op with
      | createOp req task_id =>
        simp only [applyOp, create_task_always_errors] at h
        simp at h
      | dispatchOp task_id =>
        simp only [applyOp] at h
        exact dispatch_events_allowed env task_id st.tasks tid o n h
      | deleteOp task_id =>
        simp only [applyOp] at h
        simp at h
    · exact ih _ tid o n h

/-- C4 witness: dispatching a concrete pending task emits the write
PENDING→RUNNING, which lies on an allowed edge. -/
theorem status_changes_follow_edges_witness :
    ScheduledTaskStatus.pending = ScheduledTaskStatus.running ∨
      allowedEdge .pending .running = true :=
  status_changes_follow_edges envOk [Op.dispatchOp "t1"]
    { tasks := [mkTask .linkedin .pending], jobs := [] } "t1" .pending .running
    (by
      rw [show (applyOps envOk [Op.dispatchOp "t1"]
            { tasks := [mkTask .linkedin .pending], jobs := [] }).2 =
          [Event.statusWrite "t1" .pending .running,
           Event.httpPost "http://localhost:8002/api/v1/send" (.obj [("x", .num 1)]),
           Event.statusWrite "t1" .running .completed] from rfl]
      exact List.mem_cons_self _ _)

/-- C7: any exception raised inside `_execute_task_logic` is caught by
`execute_scheduled_task_job` and converted into a durably recorded terminal
FAILED status carrying an error result for the task; no exception escapes
the dispatch job without the task's status being recorded. -/
theorem dispatch_exceptions_recorded (env : Env) (tid : String) (db : Store)
    (e : String) (h : (execute_task_logic env tid db).1 = Except.error e) :
    statusOf (execute_scheduled_task_job env tid db).1 tid =
      some ScheduledTaskStatus.failed ∧
    resultOf (execute_scheduled_task_job env tid db).1 tid =
      some (.obj [("error", .str ("Job execution wrapper error: " ++ e))]) := by
  rcases logic_error_shape env tid db e h with ⟨t, hf, hact, hshape⟩
  have hup := update_of_first_some env.now tid .running none db t hf
  unfold execute_scheduled_task_job
  rw [hshape]
  simp only
  have hup₂ := update_of_first_some env.now tid .failed
    (some (.obj [("error", .str ("Job execution wrapper error: " ++ e))]))
    (update_task_status_in_db env.now tid .running none db).1 _ hup.1
  constructor
  · unfold statusOf
    rw [hup₂.1]
    rfl
  · unfold resultOf
    rw [hup₂.1]
    simp [updatedRow, pyTruthy]

/-- C7 witness: a stored task whose payload column is not a JSON object
makes step 4 raise `AttributeError`; the wrapper records FAILED with the
wrapper error result. -/
theorem dispatch_exceptions_recorded_witness :
    statusOf (execute_scheduled_task_job envOk "t1" [badPayloadTask]).1 "t1" =
      some ScheduledTaskStatus.failed ∧
    resultOf (execute_scheduled_task_job envOk "t1" [badPayloadTask]).1 "t1" =
      some (.obj [("error", .str ("Job execution wrapper error: "
        ++ "AttributeError: object has no attribute 'get'"))]) :=
  dispatch_exceptions_recorded envOk "t1" [badPayloadTask]
    "AttributeError: object has no attribute 'get'" rfl

theorem first_eq_none_of_not_mem (tid : String) :
    ∀ ts : Store, tid ∉ ts.map (fun t => t.task_id) → ts.first tid = none := by
  intro ts
  induction ts with
  | nil => intro _; rfl
  | cons u us ih =>
    intro h
    simp only [List.map_cons, List.mem_cons] at h
    push_neg at h
    simp only [Store.first]
    have : (u.task_id == tid) = false := by
      cases hbe : (u.task_id == tid) with
      | false => rfl
      | true => exact absurd (beq_iff_eq.mp hbe).symm h.1
    simp only [this, Bool.false_eq_true, if_false]
    exact ih h.2

theorem first_deleteFirst_self (tid : String) :
    ∀ db : Store, (db.map (fun t => t.task_id)).Nodup →
      (db.deleteFirst tid).first tid = none := by
  intro db
  induction db with
  | nil => intro _; rfl
  | cons u us ih =>
    intro hnd
    simp only [List.map_cons, List.nodup_cons] at hnd
    simp only [Store.deleteFirst]
    by_cases hu : (u.task_id == tid) = true
    · simp only [hu, if_true]
      apply first_eq_none_of_not_mem
      rcases beq_iff_eq.mp hu with rfl
      exact hnd.1
    · simp only [hu, Bool.false_eq_true, if_false, Store.first]
      exact ih hnd.2

/-- C8: cancelling/deleting an id that is not in the task store reports
not-found — `False` from the service, a 404 `HTTPException` from the API —
and leaves both the task store and the scheduler's job registry completely
unchanged; and deletion is idempotent: after any delete of an id (the store
having unique primary keys), deleting the same id again reports not-found
and changes nothing. -/
theorem delete_missing_not_found_and_idempotent (tid : String) (db : Store)
    (jobs : List String) (huniq : (db.map (fun t => t.task_id)).Nodup) :
    (db.first tid = none →
      delete_task tid db jobs = (false, db, jobs) ∧
      api_delete_task tid db jobs =
        (.httpError 404 "Task not found or could not be deleted", db, jobs)) ∧
    api_delete_task tid (api_delete_task tid db jobs).2.1
        (api_delete_task tid db jobs).2.2 =
      (.httpError 404 "Task not found or could not be deleted",
       (api_delete_task tid db jobs).2.1, (api_delete_task tid db jobs).2.2) := by
  have hmiss : ∀ (db' : Store) (jobs' : List String), db'.first tid = none →
      api_delete_task tid db' jobs' =
        (.httpError 404 "Task not found or could not be deleted", db', jobs') := by
    intro db' jobs' h
    unfold api_delete_task delete_task
    rw [h]
    rfl
  constructor
  · intro h
    constructor
    · unfold delete_task
      rw [h]
    · exact hmiss db jobs h
  · cases hf : db.first tid with
    | none =>
      have h1 := hmiss db jobs hf
      rw [h1]
      exact hmiss db jobs hf
    | some t =>
      have h1 : api_delete_task tid db jobs =
          (.ok "Task cancelled successfully.", db.deleteFirst tid, jobs.erase tid) := by
        unfold api_delete_task delete_task
        rw [hf]
        rfl
      rw [h1]
      exact hmiss (db.deleteFirst tid) (jobs.erase tid)
        (first_deleteFirst_self tid db huniq)

/-- C8 witness: deleting the concrete task "t1" twice — the second delete is
a not-found no-op on the already-emptied store. -/
theorem delete_idempotent_witness :
    api_delete_task "t1" (api_delete_task "t1" [mkTask .linkedin .pending] ["t1"]).2.1
        (api_delete_task "t1" [mkTask .linkedin .pending] ["t1"]).2.2 =
      (.httpError 404 "Task not found or could not be deleted",
       (api_delete_task "t1" [mkTask .linkedin .pending] ["t1"]).2.1,
       (api_delete_task "t1" [mkTask .linkedin .pending] ["t1"]).2.2) :=
  (delete_missing_not_found_and_idempotent "t1" [mkTask .linkedin .pending] ["t1"]
    (by simp)).2

theorem wrapper_eq_of_dispatch_ok (env : Env) (tid : String) (db : Store)
    (t : ScheduledTaskTable) (db₂ : Store) (ev₂ : List Event)
    (hf : db.first tid = some t)
    (hs : t.status = ScheduledTaskStatus.pending ∨ t.status = ScheduledTaskStatus.running)
    (hd : dispatchAfterRunning env tid t
        (update_task_status_in_db env.now tid .running none db).1 = (.ok (), db₂, ev₂)) :
    execute_scheduled_task_job env tid db =
      (db₂, (update_task_status_in_db env.now tid .running none db).2 ++ ev₂) :=
  wrapper_of_ok env tid db _ _ (by rw [logic_eq_of_active env tid db t hf hs, hd])

/-- C3 counterexample: a dispatched task whose outbound call answers 200
with the parsed body `{}` is recorded COMPLETED, but — because
`update_task_status_in_db` only stores a truthy result (`if result:`) — the
stored result remains the previous value (`None`), not the parsed response
body, refuting "a 2xx response yields terminal status COMPLETED with result
equal to the parsed response body". -/
theorem completed_with_falsy_body_keeps_old_result :
    statusOf (execute_scheduled_task_job envEmptyBody "t1"
        [mkTask .linkedin .pending]).1 "t1" = some ScheduledTaskStatus.completed ∧
    resultOf (execute_scheduled_task_job envEmptyBody "t1"
        [mkTask .linkedin .pending]).1 "t1" = none :=
  ⟨rfl, rfl⟩

/-- C3 (amended): for a dispatched task (stored, PENDING, with a well-formed
payload and a configured platform address) exactly one outbound POST is
made, and the outcome is classified with no retry: a network/timeout error
yields FAILED with the error description; a 2xx response yields COMPLETED,
the parsed response body being stored as the result when it is truthy and
the previously stored result being kept when it is falsy; a non-2xx
response yields FAILED with a result carrying the status-code error text
and the response body. -/
theorem dispatch_outcome_classification (env : Env) (tid : String) (db : Store)
    (t : ScheduledTaskTable) (ep : String) (body : Json) (url : String)
    (hf : db.first tid = some t)
    (hs : t.status = ScheduledTaskStatus.pending)
    (hep : t.task_payload_json.dictGet "mcp_target_endpoint" = .ok (some (.str ep)))
    (hbody : t.task_payload_json.dictGet "mcp_request_body" = .ok (some body))
    (hurl : get_mcp_base_url env.settings t.platform_name = .ok url)
    (hne : (url == "") = false) :
    ((execute_scheduled_task_job env tid db).2.filter Event.isPost).length = 1 ∧
    (∀ msg, env.http (fullTargetUrl url ep) body = .requestError msg →
      statusOf (execute_scheduled_task_job env tid db).1 tid =
        some ScheduledTaskStatus.failed ∧
      resultOf (execute_scheduled_task_job env tid db).1 tid =
        some (.obj [("error", .str ("Request error: " ++ msg))])) ∧
    (∀ r, env.http (fullTargetUrl url ep) body = .response r →
      (httpIsSuccess r.status_code = true →
        ∀ parsed, r.jsonBody = some parsed →
          statusOf (execute_scheduled_task_job env tid db).1 tid =
            some ScheduledTaskStatus.completed ∧
          (pyTruthy (some parsed) = true →
            resultOf (execute_scheduled_task_job env tid db).1 tid = some parsed) ∧
          (pyTruthy (some parsed) = false →
            resultOf (execute_scheduled_task_job env tid db).1 tid =
              t.execution_result_json)) ∧
      (httpIsSuccess r.status_code = false →
        statusOf (execute_scheduled_task_job env tid db).1 tid =
          some ScheduledTaskStatus.failed ∧
        resultOf (execute_scheduled_task_job env tid db).1 tid =
          some (.obj [("error", .str ("HTTP error: " ++ httpStatusErrorMsg r)),
                      ("details", .str r.text)]))) := by
  have hup := update_of_first_some env.now tid .running none db t hf
  cases hout : env.http (fullTargetUrl url ep) body with
  | requestError msg =>
    have hd : dispatchAfterRunning env tid t
        (update_task_status_in_db env.now tid .running none db).1 =
        (.ok (),
         (update_task_status_in_db env.now tid .failed
           (some (.obj [("error", .str ("Request error: " ++ msg))]))
           (update_task_status_in_db env.now tid .running none db).1).1,
         .httpPost (fullTargetUrl url ep) body ::
           (update_task_status_in_db env.now tid .failed
             (some (.obj [("error", .str ("Request error: " ++ msg))]))
             (update_task_status_in_db env.now tid .running none db).1).2) := by
      unfold dispatchAfterRunning
      simp only [hep, hbody, hurl, hne, Bool.false_eq_true, if_false,
        endpointString, optJson, hout]
    have hw := wrapper_eq_of_dispatch_ok env tid db t _ _ hf (.inl hs) hd
    have hupT := update_of_first_some env.now tid .failed
      (some (.obj [("error", .str ("Request error: " ++ msg))]))
      (update_task_status_in_db env.now tid .running none db).1 _ hup.1
    refine ⟨?_, ?_, ?_⟩
    · rw [hw, hup.2, hupT.2]
      simp [Event.isPost]
    · intro msg' hmsg
      cases hmsg
      constructor
      · rw [hw]
        simp only [statusOf, hupT.1, updatedRow]
        rfl
      · rw [hw]
        simp only [resultOf, hupT.1, updatedRow]
        rfl
    · intro r hr
      cases hr
  | response r0 =>
    by_cases hsucc : httpIsSuccess r0.status_code = true
    · cases hjson : r0.jsonBody with
      | some parsed =>
        have hd : dispatchAfterRunning env tid t
            (update_task_status_in_db env.now tid .running none db).1 =
            (.ok (),
             (update_task_status_in_db env.now tid .completed (some parsed)
               (update_task_status_in_db env.now tid .running none db).1).1,
             .httpPost (fullTargetUrl url ep) body ::
               (update_task_status_in_db env.now tid .completed (some parsed)
                 (update_task_status_in_db env.now tid .running none db).1).2) := by
          unfold dispatchAfterRunning
          simp only [hep, hbody, hurl, hne, Bool.false_eq_true, if_false,
            endpointString, optJson, hout, hsucc, if_true, hjson]
        have hw := wrapper_eq_of_dispatch_ok env tid db t _ _ hf (.inl hs) hd
        have hupT := update_of_first_some env.now tid .completed (some parsed)
          (update_task_status_in_db env.now tid .running none db).1 _ hup.1
        refine ⟨?_, ?_, ?_⟩
        · rw [hw, hup.2, hupT.2]
          simp [Event.isPost]
        · intro msg hmsg
          cases hmsg
        · intro r hr
          cases hr
          refine ⟨?_, ?_⟩
          · intro _ parsed' hparsed
            rw [hjson] at hparsed
            cases hparsed
            refine ⟨?_, ?_, ?_⟩
            · rw [hw]
              simp only [statusOf, hupT.1, updatedRow]
              rfl
            · intro hpt
              rw [hw]
              simp only [resultOf, hupT.1, updatedRow, hpt, if_true]
              rfl
            · intro hpf
              rw [hw]
              simp only [resultOf, hupT.1, updatedRow, hpf, Bool.false_eq_true, if_false]
              rfl
          · intro hfail
            rw [hsucc] at hfail
            cases hfail
      | none =>
        have hd : dispatchAfterRunning env tid t
            (update_task_status_in_db env.now tid .running none db).1 =
            (.ok (),
             (update_task_status_in_db env.now tid .failed
               (some (.obj [("error", .str ("Unexpected error: " ++ jsonDecodeErrorMsg))]))
               (update_task_status_in_db env.now tid .running none db).1).1,
             .httpPost (fullTargetUrl url ep) body ::
               (update_task_status_in_db env.now tid .failed
                 (some (.obj [("error", .str ("Unexpected error: " ++ jsonDecodeErrorMsg))]))
                 (update_task_status_in_db env.now tid .running none db).1).2) := by
          unfold dispatchAfterRunning
          simp only [hep, hbody, hurl, hne, Bool.false_eq_true, if_false,
            endpointString, optJson, hout, hsucc, if_true, hjson]
        have hw := wrapper_eq_of_dispatch_ok env tid db t _ _ hf (.inl hs) hd
        have hupT := update_of_first_some env.now tid .failed
          (some (.obj [("error", .str ("Unexpected error: " ++ jsonDecodeErrorMsg))]))
          (update_task_status_in_db env.now tid .running none db).1 _ hup.1
        refine ⟨?_, ?_, ?_⟩
        · rw [hw, hup.2, hupT.2]
          simp [Event.isPost]
        · intro msg hmsg
          cases hmsg
        · intro r hr
          cases hr
          refine ⟨?_, ?_⟩
          · intro _ parsed' hparsed
            rw [hjson] at hparsed
            cases hparsed
          · intro hfail
            rw [hsucc] at hfail
            cases hfail
    · have hsuccF : httpIsSuccess r0.status_code = false := by
        cases hv : httpIsSuccess r0.status_code with
        | false => rfl
        | true => exact absurd hv hsucc
      have hd : dispatchAfterRunning env tid t
          (update_task_status_in_db env.now tid .running none db).1 =
          (.ok (),
           (update_task_status_in_db env.now tid .failed
             (some (.obj [("error", .str ("HTTP error: " ++ httpStatusErrorMsg r0)),
                          ("details", .str r0.text)]))
             (update_task_status_in_db env.now tid .running none db).1).1,
           .httpPost (fullTargetUrl url ep) body ::
             (update_task_status_in_db env.now tid .failed
               (some (.obj [("error", .str ("HTTP error: " ++ httpStatusErrorMsg r0)),
                            ("details", .str r0.text)]))
               (update_task_status_in_db env.now tid .running none db).1).2) := by
        unfold dispatchAfterRunning
        simp only [hep, hbody, hurl, hne, Bool.false_eq_true, if_false,
          endpointString, optJson, hout, hsuccF]
      have hw := wrapper_eq_of_dispatch_ok env tid db t _ _ hf (.inl hs) hd
      have hupT := update_of_first_some env.now tid .failed
        (some (.obj [("error", .str ("HTTP error: " ++ httpStatusErrorMsg r0)),
                     ("details", .str r0.text)]))
        (update_task_status_in_db env.now tid .running none db).1 _ hup.1
      refine ⟨?_, ?_, ?_⟩
      · rw [hw, hup.2, hupT.2]
        simp [Event.isPost]
      · intro msg hmsg
        cases hmsg
      · intro r hr
        cases hr
        refine ⟨?_, ?_⟩
        · intro hT
          rw [hsuccF] at hT
          cases hT
        · intro _
          constructor
          · rw [hw]
            simp only [statusOf, hupT.1, updatedRow]
            rfl
          · rw [hw]
            simp only [resultOf, hupT.1, updatedRow]
            rfl

/-- C3 (amended) witness: dispatching the concrete pending task against the
stub endpoint that answers 200 `{"sent": true}` makes exactly one POST and
records COMPLETED with the (truthy) parsed body as result. -/
theorem dispatch_outcome_classification_witness :
    statusOf (execute_scheduled_task_job envOk "t1"
        [mkTask .linkedin .pending]).1 "t1" = some ScheduledTaskStatus.completed ∧
    (pyTruthy (some (.obj [("sent", .bool true)])) = true →
      resultOf (execute_scheduled_task_job envOk "t1"
          [mkTask .linkedin .pending]).1 "t1" =
        some (.obj [("sent", .bool true)])) ∧
    (pyTruthy (some (.obj [("sent", .bool true)])) = false →
      resultOf (execute_scheduled_task_job envOk "t1"
          [mkTask .linkedin .pending]).1 "t1" =
        (mkTask .linkedin .pending).execution_result_json) :=
  ((dispatch_outcome_classification envOk "t1" [mkTask .linkedin .pending]
      (mkTask .linkedin .pending) "/send" (.obj [("x", .num 1)])
      "http://localhost:8002/api/v1" rfl rfl rfl rfl rfl rfl).2.2
    { status_code := 200, text := "\x7b\"sent\": true\x7d",
      jsonBody := some (.obj [("sent", .bool true)]) } rfl).1 rfl
    (.obj [("sent", .bool true)]) rfl

/-- C6: the claim's configuration-failure path is broken for email — there
is no configured email base address (`Settings` declares no
`MCP_EMAIL_BASE_URL` field), yet dispatching a concrete email task does not
take the clean "not configured → FAILED" branch: `_get_mcp_base_url` raises
`AttributeError`, which escapes `_execute_task_logic` and is only converted
to FAILED by the generic job wrapper, with a "Job execution wrapper error"
result rather than the configuration-failure result; no outbound call is
made. -/
theorem email_dispatch_crashes_on_missing_config :
    (execute_task_logic envOk "t1" [mkTask .email .pending]).1 =
      .error "AttributeError: 'Settings' object has no attribute 'MCP_EMAIL_BASE_URL'" ∧
    statusOf (execute_scheduled_task_job envOk "t1" [mkTask .email .pending]).1 "t1" =
      some ScheduledTaskStatus.failed ∧
    resultOf (execute_scheduled_task_job envOk "t1" [mkTask .email .pending]).1 "t1" =
      some (.obj [("error", .str ("Job execution wrapper error: "
        ++ "AttributeError: 'Settings' object has no attribute 'MCP_EMAIL_BASE_URL'"))]) ∧
    ((execute_scheduled_task_job envOk "t1" [mkTask .email .pending]).2.filter
      Event.isPost) = [] :=
  ⟨rfl, rfl, rfl, rfl⟩

end Scheduler
